import Mathlib

/-!
Formal model of the GestureVoice coordination layer.

Shallow embedding of the backend source:
* `RealisticWebSocketHandler` (event dispatch, busy flags, keyword extraction),
* `TranslationService` (`signToText`, `textToSign`),
* `Avatar3DService` (`generateAvatarPose` and the gesture animation tables),
* `RealisticVoiceService.validateAudioFormat`.

JavaScript values are mapped as follows: numbers are `Rat` (all numeric
literals in the source are exact decimals), strings are `String`, JS `Map`s
are association lists in insertion order (JS `Map` iteration order), object
literals with string keys are association lists in declaration order
(JS object-key iteration order for non-integer keys), `undefined`/`null`
results are `Option`, and a thrown exception that the source can observe is
an explicit `Except`/`Outcome` value.
-/

namespace GestureVoice

/-! ## String helpers mirroring the JavaScript primitives used by the source -/

/-- Executable rational arithmetic. The `Rat` operations of the ambient
library are `@[irreducible]`, so the JS number operations used by the source
are modeled by these `mkRat`-based equivalents, which the kernel can
evaluate on concrete inputs. -/
def ratAdd (a b : Rat) : Rat :=
  mkRat (a.num * (b.den : Int) + b.num * (a.den : Int)) (a.den * b.den)

/-- Executable negation on `Rat`. -/
def ratNeg (a : Rat) : Rat :=
  mkRat (-a.num) a.den

/-- Executable subtraction on `Rat`. -/
def ratSub (a b : Rat) : Rat :=
  ratAdd a (ratNeg b)

/-- Executable division on `Rat` (the source only ever divides by a
positive count). -/
def ratDiv (a b : Rat) : Rat :=
  if b.num < 0 then mkRat (-(a.num * (b.den : Int))) (a.den * b.num.natAbs)
  else mkRat (a.num * (b.den : Int)) (a.den * b.num.natAbs)

/-- Embedding of a natural count into `Rat`. -/
def natToRat (n : Nat) : Rat :=
  mkRat (Int.ofNat n) 1

/-- JS `Math.min` on exact rationals. -/
def ratMin (a b : Rat) : Rat :=
  if a ≤ b then a else b

/-- JS `Math.abs` on exact rationals. -/
def ratAbs (q : Rat) : Rat :=
  if q < 0 then ratNeg q else q

/-- JS `String.prototype.toLowerCase` on the character list of a string
(all keys in the source tables are ASCII). -/
def lowerChars (s : String) : List Char :=
  s.data.map Char.toLower

/-- JS `String.prototype.includes`: `containsSub hay needle` is `true` iff
`needle` occurs as a contiguous substring of `hay` (the empty needle always
occurs). -/
def containsSub : List Char → List Char → Bool
  | [], needle => needle.isEmpty
  | c :: t, needle => needle.isPrefixOf (c :: t) || containsSub t needle

/-! ## `extractGestureFromText` (RealisticWebSocketHandler.ts lines 427-497) -/

/-- The `gestureKeywords` object literal of `extractGestureFromText`, in
declaration order (JS preserves declaration order for these non-integer
string keys). -/
def gestureKeywords : List (String × String) :=
  [("hello", "hello"), ("hi", "hello"), ("hey", "hello"),
   ("goodbye", "goodbye"), ("bye", "goodbye"), ("see you", "goodbye"),
   ("good morning", "good_morning"), ("good afternoon", "good_afternoon"),
   ("good evening", "good_evening"), ("good night", "good_night"),
   ("thank you", "thank_you"), ("thanks", "thank_you"), ("thank", "thank_you"),
   ("please", "please"), ("sorry", "sorry"), ("excuse me", "excuse_me"),
   ("yes", "yes"), ("yeah", "yes"), ("okay", "yes"), ("ok", "yes"),
   ("no", "no"), ("nope", "no"), ("not", "no"),
   ("help", "help"), ("stop", "stop"), ("wait", "stop"),
   ("water", "water"), ("drink", "water"), ("thirsty", "water"),
   ("food", "food"), ("eat", "food"), ("hungry", "food"),
   ("bathroom", "bathroom"), ("restroom", "bathroom"), ("toilet", "bathroom"),
   ("happy", "happy"), ("sad", "sad"), ("tired", "tired"),
   ("pain", "pain"), ("hurt", "pain"),
   ("love you", "i_love_you"), ("love", "i_love_you"),
   ("family", "family"), ("friend", "friend"),
   ("home", "home"), ("work", "work"), ("school", "school"),
   ("time", "time"), ("today", "today"), ("tomorrow", "tomorrow"),
   ("yesterday", "yesterday"),
   ("understand", "understand"), ("confused", "confused"),
   ("repeat", "repeat"),
   ("dont understand", "dont_understand"),
   ("don\x27t understand", "dont_understand"),
   ("slow down", "slow_down"), ("slower", "slow_down")]

/-- The `numbers` array of `extractGestureFromText`. -/
def numberWords : List String :=
  ["zero", "one", "two", "three", "four", "five", "six", "seven",
   "eight", "nine", "ten"]

/-- The `letters` array of `extractGestureFromText`. -/
def commonLetters : List String :=
  ["a", "b", "c", "d", "e"]

/-- First `for (const [keyword, gesture] of Object.entries(gestureKeywords))`
loop: return the gesture of the first entry whose keyword is a substring of
the lowered text. -/
def findKeywordGesture (lt : List Char) : Option String :=
  (gestureKeywords.find? (fun p => containsSub lt p.1.data)).map (fun p => p.2)

/-- The numbers loop: for `i` from 0, return `numbers[i]` if the text
contains the spelled word or the digit string `i.toString()`. -/
def findNumberGesture (lt : List Char) : Option String :=
  ((List.range numberWords.length).find? (fun i =>
      containsSub lt (numberWords.getD i (String.mk [])).data ||
      containsSub lt (Nat.repr i).data)).map
    (fun i => numberWords.getD i (String.mk []))

/-- The letters loop: return the letter when the text contains
`letter X` or equals the letter itself. -/
def findLetterGesture (lt : List Char) : Option String :=
  commonLetters.find? (fun l =>
    containsSub lt (String.append ("letter ") l).data || lt == l.data)

/-- `RealisticWebSocketHandler.extractGestureFromText`: keyword scan in
declaration order, then the 0-10 number scan, then the letter scan,
otherwise `null`. -/
def extractGestureFromText (text : String) : Option String :=
  let lt := lowerChars text
  match findKeywordGesture lt with
  | some g => some g
  | none =>
    match findNumberGesture lt with
    | some g => some g
    | none => findLetterGesture lt

/-! ## TranslationService.ts -/

/-- JS `\s` whitespace class restricted to the ASCII whitespace characters
(the only ones the backend ever feeds through `split(/\s+/)`). -/
def isJsWs (c : Char) : Bool :=
  c == ' ' || c == '\t' || c == '\n' || c == '\r' || c == '\x0b' || c == '\x0c'

/-- Worker for `splitWs`: accumulates the current token (reversed); the
boolean records whether the scanner is inside a whitespace run, so that a
maximal run produces a single cut. -/
def splitWsGo : List Char → List Char → Bool → List (List Char)
  | [], cur, _ => [cur.reverse]
  | c :: rest, cur, inRun =>
    if isJsWs c then
      if inRun then splitWsGo rest [] true
      else cur.reverse :: splitWsGo rest [] true
    else
      splitWsGo rest (c :: cur) false

/-- JS `str.split(/\s+/)`: split at maximal whitespace runs, keeping the
empty boundary pieces JS produces (so `splitWs [] = [[]]` and leading or
trailing whitespace contributes an empty token). -/
def splitWs (s : List Char) : List (List Char) :=
  splitWsGo s [] false

/-- `TranslationService.wordToGestureMap` in insertion order. -/
def wordToGestureMap : List (String × String) :=
  [("hello", "hello"), ("hi", "hello"), ("hey", "hello"),
   ("goodbye", "goodbye"), ("bye", "goodbye"),
   ("thanks", "thank_you"), ("thank you", "thank_you"),
   ("please", "please"), ("sorry", "sorry"),
   ("yes", "yes"), ("no", "no"), ("help", "help"), ("stop", "stop"),
   ("good morning", "good_morning"), ("morning", "good_morning")]

/-- JS `this.wordToGestureMap.get(word)` (exact-key lookup). -/
def wordMapGet (word : List Char) : Option String :=
  (wordToGestureMap.find? (fun p => p.1.data == word)).map (fun p => p.2)

/-- A 3-D coordinate triple as used by animation keyframes and avatar
bone positions. -/
structure Vec3 where
  x : Rat
  y : Rat
  z : Rat
deriving DecidableEq, Repr

/-- `AnimationKeyframe` of TranslationService.ts. -/
structure AnimationKeyframe where
  timestamp : Nat
  handPosition : Vec3
  fingerPositions : List Rat
  description : String
deriving DecidableEq, Repr

/-- `SignAnimation` of TranslationService.ts. -/
structure SignAnimation where
  gesture : String
  duration : Nat
  keyframes : List AnimationKeyframe
  description : String
deriving DecidableEq, Repr

/-- `TranslationService.createWaveAnimation`. -/
def createWaveAnimation : List SignAnimation :=
  [{ gesture := "wave", duration := 2000,
     keyframes :=
       [⟨0, ⟨0, 0, 0⟩, [1, 1, 1, 1, 1], "Raise hand"⟩,
        ⟨500, ⟨mkRat 2 10, 0, 0⟩, [1, 1, 1, 1, 1], "Wave right"⟩,
        ⟨1000, ⟨mkRat (-2) 10, 0, 0⟩, [1, 1, 1, 1, 1], "Wave left"⟩,
        ⟨1500, ⟨0, 0, 0⟩, [1, 1, 1, 1, 1], "Center"⟩,
        ⟨2000, ⟨0, mkRat (-3) 10, 0⟩, [0, 0, 0, 0, 0], "Lower hand"⟩],
     description := "Wave hand side to side" }]

/-- `TranslationService.createThankYouAnimation`. -/
def createThankYouAnimation : List SignAnimation :=
  [{ gesture := "thank_you", duration := 1500,
     keyframes :=
       [⟨0, ⟨0, mkRat 2 10, mkRat (-1) 10⟩, [1, 1, 1, 1, 1], "Touch chin"⟩,
        ⟨1000, ⟨0, mkRat (-1) 10, mkRat 2 10⟩, [1, 1, 1, 1, 1], "Move forward"⟩,
        ⟨1500, ⟨0, mkRat (-2) 10, mkRat 3 10⟩, [1, 1, 1, 1, 1], "Complete motion"⟩],
     description := "Touch chin and move forward" }]

/-- `TranslationService.createYesAnimation`. -/
def createYesAnimation : List SignAnimation :=
  [{ gesture := "yes", duration := 1000,
     keyframes :=
       [⟨0, ⟨0, 0, 0⟩, [0, 0, 0, 0, 0], "Fist position"⟩,
        ⟨250, ⟨0, mkRat 1 10, 0⟩, [0, 0, 0, 0, 0], "Nod up"⟩,
        ⟨500, ⟨0, mkRat (-1) 10, 0⟩, [0, 0, 0, 0, 0], "Nod down"⟩,
        ⟨750, ⟨0, mkRat 5 100, 0⟩, [0, 0, 0, 0, 0], "Nod up again"⟩,
        ⟨1000, ⟨0, 0, 0⟩, [0, 0, 0, 0, 0], "Return center"⟩],
     description := "Nod fist up and down" }]

/-- An entry of `TranslationService.signLanguageDictionary`. -/
structure DictEntry where
  description : String
  animations : List SignAnimation
  category : String
deriving DecidableEq, Repr

/-- `TranslationService.signLanguageDictionary` in insertion order; the
stubbed animation creators (`createGoodbyeAnimation` and so on) return the
empty list in the source. -/
def signLanguageDictionary : List (String × DictEntry) :=
  [("hello",
    ⟨"Wave hand with open palm, fingers extended", createWaveAnimation,
     "greeting"⟩),
   ("goodbye",
    ⟨"Wave hand back and forth with palm facing forward", [], "greeting"⟩),
   ("good_morning",
    ⟨"Touch fingertips to forehead, then extend hand forward", [],
     "greeting"⟩),
   ("thank_you",
    ⟨"Touch fingertips to chin, then move hand forward and down",
     createThankYouAnimation, "courtesy"⟩),
   ("please",
    ⟨"Place palm on chest and move in circular motion", [], "courtesy"⟩),
   ("sorry",
    ⟨"Make fist, place on chest, move in circular motion", [], "courtesy"⟩),
   ("yes", ⟨"Make fist and nod up and down", createYesAnimation, "response"⟩),
   ("no",
    ⟨"Extend index and middle finger, shake side to side", [], "response"⟩),
   ("help",
    ⟨"Place one hand palm up, place other hand on top, lift both", [],
     "action"⟩),
   ("stop", ⟨"Extend palm forward, fingers up, firm gesture", [], "action"⟩)]

/-- JS `this.signLanguageDictionary.get(gesture)`. -/
def dictGet (g : String) : Option DictEntry :=
  (signLanguageDictionary.find? (fun p => p.1 == g)).map (fun p => p.2)

/-- JS `this.signLanguageDictionary.has(gesture)`. -/
def dictHas (g : String) : Bool :=
  (dictGet g).isSome

/-- `TranslationService.findPartialGestureMatch`: first map key that
contains the word or is contained in it, returning that key's gesture. -/
def findPartialGestureMatch (word : List Char) : Option String :=
  (wordToGestureMap.find?
      (fun p => containsSub p.1.data word || containsSub word p.1.data)).map
    (fun p => p.2)

/-- `TranslationService.getLetterFingerPosition` (JS object lookup with the
`[1,1,1,1,1]` default). -/
def getLetterFingerPosition (letter : Char) : List Rat :=
  if letter.toLower == 'a' then [0, 1, 1, 1, 1]
  else if letter.toLower == 'b' then [1, 1, 1, 1, 0]
  else if letter.toLower == 'c' then [mkRat 5 10, mkRat 5 10, mkRat 5 10, mkRat 5 10, mkRat 5 10]
  else [1, 1, 1, 1, 1]

/-- `TranslationService.createFingerspellingAnimation`: one keyframe per
letter of the word, 800 time-units apart. -/
def createFingerspellingAnimation (word : List Char) : SignAnimation :=
  { gesture := "fingerspell",
    duration := word.length * 800,
    keyframes := word.enum.map (fun p =>
      { timestamp := p.1 * 800,
        handPosition := ⟨0, 0, 0⟩,
        fingerPositions := getLetterFingerPosition p.2,
        description := ("Spell letter: ") ++ String.mk [p.2.toUpper] }),
    description := ("Fingerspell the word: ") ++ String.mk word }

/-- `TranslationService.generateSignDescription` (the private helper of
`textToSign`). -/
def generateSignDescriptionT (originalText : String) (words : List (List Char)) :
    String :=
  let knownGestures := words.filter (fun w =>
    (wordMapGet w).isSome || (findPartialGestureMatch w).isSome)
  if knownGestures.isEmpty then
    ("Fingerspell: \"") ++ originalText ++ "\""
  else
    let descriptions := knownGestures.map (fun w =>
      let gesture :=
        match wordMapGet w with
        | some g => some g
        | none => findPartialGestureMatch w
      match gesture with
      | some g =>
        match dictGet g with
        | some e => e.description
        | none => ("Fingerspell \"") ++ String.mk w ++ "\""
      | none => ("Fingerspell \"") ++ String.mk w ++ "\"")
    String.intercalate (", then ") descriptions

/-- Result record of `textToSign`. -/
structure TextToSignResult where
  signDescription : String
  animations : List SignAnimation
  confidence : Rat
deriving DecidableEq, Repr

/-- JS non-null assertion `x!`: dereferencing `undefined` raises a
`TypeError`, modeled as `Except.error`. -/
def jsNonNull {α : Type} : Option α → Except String α
  | some a => Except.ok a
  | none => Except.error ("TypeError")

/-- Body of `TranslationService.textToSign` (inside its `try`): tokenize the
lowered text, accumulate an animation fragment and a per-token confidence of
0.9 (exact match), 0.6 (partial match) or 0.4 (fingerspelling fallback) per
token, and return `null` only when no fragment at all was produced. -/
def textToSignE (text : String) : Except String (Option TextToSignResult) := do
  let words := splitWs (lowerChars text)
  let acc ← words.foldlM
    (fun (acc : List SignAnimation × Rat × Nat) word => do
      let exact ←
        match wordMapGet word with
        | some gesture =>
          if dictHas gesture then do
            let e ← jsNonNull (dictGet gesture)
            pure (some e.animations)
          else
            pure none
        | none => pure none
      match exact with
      | some anims => pure (acc.1 ++ anims, ratAdd acc.2.1 (mkRat 9 10), acc.2.2 + 1)
      | none =>
        match findPartialGestureMatch word with
        | some partialMatch => do
          let e ← jsNonNull (dictGet partialMatch)
          pure (acc.1 ++ e.animations, ratAdd acc.2.1 (mkRat 6 10), acc.2.2 + 1)
        | none =>
          pure (acc.1 ++ [createFingerspellingAnimation word],
                ratAdd acc.2.1 (mkRat 4 10), acc.2.2 + 1))
    ([], 0, 0)
  let (signAnimations, overallConfidence, matchCount) := acc
  if signAnimations.isEmpty then
    return none
  let finalConfidence : Rat :=
    if matchCount > 0 then ratDiv overallConfidence (natToRat matchCount) else 0
  return some
    { signDescription := generateSignDescriptionT text words,
      animations := signAnimations,
      confidence := ratMin 1 finalConfidence }

/-- `TranslationService.textToSign`: the `catch` clause of the source turns
any internal failure into `null`. -/
def textToSign (text : String) : Option TextToSignResult :=
  match textToSignE text with
  | Except.ok r => r
  | Except.error _ => none

/-- JS read `l[i]` of an array element that the source does not guard with
`|| 0`: an out-of-range read yields `undefined`, modeled as an error. The
theorems below show such reads never happen. -/
def jsIdx {α : Type} (l : List α) (i : Nat) : Except String α :=
  match l.get? i with
  | some v => Except.ok v
  | none => Except.error ("undefined")

/-- JS read `l[i] || 0` (the z-coordinate reads): an absent element or a
zero element both give `0`. -/
def jsIdxD (l : List Rat) (i : Nat) : Rat :=
  (l.get? i).getD 0

/-- The gesture-to-phrase table inside
`TranslationService.gestureSequenceToText`. -/
def gestureToText : List (String × String) :=
  [("hello", "Hello"), ("goodbye", "Goodbye"), ("thank_you", "Thank you"),
   ("please", "Please"), ("yes", "Yes"), ("no", "No"), ("help", "Help"),
   ("stop", "Stop"), ("good_morning", "Good morning")]

/-- `TranslationService.gestureSequenceToText`: map the most recent buffered
gesture through the fixed table, `null` when the buffer is empty or the
gesture has no mapping. -/
def gestureSequenceToText (buffer : List (String × Int)) : Option String :=
  match buffer.getLast? with
  | none => none
  | some latest => (gestureToText.find? (fun p => p.1 == latest.1)).map
      (fun p => p.2)

/-- `TranslationService.cleanGestureBuffer` with `sequenceTimeoutMs = 3000`. -/
def cleanGestureBuffer (now : Int) (buffer : List (String × Int)) :
    List (String × Int) :=
  buffer.filter (fun g => now - g.2 < 3000)

/-- `SignLanguageData` of types/index.ts. -/
structure SignLanguageData where
  landmarks : List (List Rat)
  confidence : Rat
  timestamp : Int
  sessionId : String
  recognizedGesture : Option String := none
  gestureDescription : Option String := none
deriving DecidableEq, Repr

/-- `TranslationService.recognizeGestureFromLandmarks`: the heuristic shape
classifier over wrist and fingertip landmarks. Reads of the flat landmark
array are modeled with `jsIdx`; the `< 21 * 3` guard keeps them in range. -/
def recognizeGestureFromLandmarksE (landmarks : List (List Rat)) :
    Except String (Option (String × Rat)) := do
  if landmarks.length == 0 || (landmarks.headD []).length < 21 * 3 then
    return none
  let handPoints := landmarks.headD []
  let thumbTipX ← jsIdx handPoints (4 * 3)
  let thumbTipY ← jsIdx handPoints (4 * 3 + 1)
  let _thumbTipZ ← jsIdx handPoints (4 * 3 + 2)
  let indexTipX ← jsIdx handPoints (8 * 3)
  let indexTipY ← jsIdx handPoints (8 * 3 + 1)
  let _indexTipZ ← jsIdx handPoints (8 * 3 + 2)
  let _middleTipX ← jsIdx handPoints (12 * 3)
  let middleTipY ← jsIdx handPoints (12 * 3 + 1)
  let _middleTipZ ← jsIdx handPoints (12 * 3 + 2)
  let _ringTipX ← jsIdx handPoints (16 * 3)
  let ringTipY ← jsIdx handPoints (16 * 3 + 1)
  let _ringTipZ ← jsIdx handPoints (16 * 3 + 2)
  let _pinkyTipX ← jsIdx handPoints (20 * 3)
  let pinkyTipY ← jsIdx handPoints (20 * 3 + 1)
  let _pinkyTipZ ← jsIdx handPoints (20 * 3 + 2)
  let _wristX ← jsIdx handPoints 0
  let wristY ← jsIdx handPoints 1
  let _wristZ ← jsIdx handPoints 2
  let allFingersUp := thumbTipY < wristY && indexTipY < wristY &&
    middleTipY < wristY && ringTipY < wristY && pinkyTipY < wristY
  let thumbsUp := thumbTipY < wristY && indexTipY > wristY &&
    middleTipY > wristY && ringTipY > wristY && pinkyTipY > wristY
  let pointingUp := indexTipY < wristY && thumbTipY > wristY &&
    middleTipY > wristY && ringTipY > wristY && pinkyTipY > wristY
  let okSign := ratAbs (ratSub thumbTipX indexTipX) < mkRat 5 100 &&
    ratAbs (ratSub thumbTipY indexTipY) < mkRat 5 100
  if allFingersUp then
    return some ("hello", mkRat 8 10)
  else if thumbsUp then
    return some ("yes", mkRat 85 100)
  else if pointingUp then
    return some ("help", mkRat 7 10)
  else if okSign then
    return some ("thank_you", mkRat 75 100)
  else
    return some ("unknown", mkRat 3 10)

/-- Result record of `signToText`. -/
structure SignTranslationResult where
  text : String
  confidence : Rat
  gesture : Option String := none
deriving DecidableEq, Repr

/-- Body of `TranslationService.signToText` (inside its `try`), with the
gesture-sequence buffer passed explicitly: classify, append to the buffer,
prune stale entries, map the latest gesture to a phrase, and combine the
classifier confidence with the observation confidence by `min`. -/
def signToTextE (buffer : List (String × Int)) (now : Int)
    (signData : SignLanguageData) :
    Except String (Option SignTranslationResult × List (String × Int)) := do
  let gesture? ← recognizeGestureFromLandmarksE signData.landmarks
  match gesture? with
  | none => return (none, buffer)
  | some gesture =>
    let buf := cleanGestureBuffer now (buffer ++ [(gesture.1, now)])
    match gestureSequenceToText buf with
    | some translatedText =>
      return (some { text := translatedText,
                     confidence := ratMin gesture.2 signData.confidence,
                     gesture := some gesture.1 }, buf)
    | none => return (none, buf)

/-- `TranslationService.signToText`: the `catch` clause turns any internal
failure into `null` (the buffer is unchanged then, since the only failure
point precedes the buffer push). -/
def signToText (buffer : List (String × Int)) (now : Int)
    (signData : SignLanguageData) :
    Option SignTranslationResult × List (String × Int) :=
  match signToTextE buffer now signData with
  | Except.ok r => r
  | Except.error _ => (none, buffer)

/-! ## Avatar3DService.ts -/

/-- Executable multiplication on `Rat`. -/
def ratMul (a b : Rat) : Rat :=
  mkRat (a.num * b.num) (a.den * b.den)

/-- Embedding of an integer into `Rat`. -/
def intToRat (i : Int) : Rat :=
  mkRat i 1

/-- `AvatarBone` of Avatar3DService.ts. -/
structure AvatarBone where
  name : String
  position : Vec3
  rotation : Vec3
deriving DecidableEq, Repr

/-- `AvatarPose` of Avatar3DService.ts. -/
structure AvatarPose where
  timestamp : Int
  bones : List AvatarBone
  facialExpression : Option String := none
  duration : Nat
deriving DecidableEq, Repr

/-- The trigonometric primitives `Math.atan2`, `Math.sin`, `Math.cos` used
by `calculateFingerRotation`. The source's floating-point trigonometry has
no exact rational counterpart; the embedding is parametric in it. No
control flow of the service inspects these values, so every theorem below
holds for an arbitrary model. -/
structure TrigModel where
  atan2 : Rat → Rat → Rat
  sin : Rat → Rat
  cos : Rat → Rat

/-- `Avatar3DService.avatarSkeleton`: bone names with default positions, in
declaration order (`Object.values` order). -/
def avatarSkeleton : List (String × Vec3) :=
  [("Head", ⟨0, mkRat 16 10, 0⟩),
   ("Neck", ⟨0, mkRat 14 10, 0⟩),
   ("Chest", ⟨0, mkRat 12 10, 0⟩),
   ("Spine", ⟨0, mkRat 10 10, 0⟩),
   ("LeftShoulder", ⟨mkRat (-2) 10, mkRat 13 10, 0⟩),
   ("LeftUpperArm", ⟨mkRat (-3) 10, mkRat 11 10, 0⟩),
   ("LeftForearm", ⟨mkRat (-4) 10, mkRat 9 10, 0⟩),
   ("LeftHand", ⟨mkRat (-5) 10, mkRat 8 10, 0⟩),
   ("RightShoulder", ⟨mkRat 2 10, mkRat 13 10, 0⟩),
   ("RightUpperArm", ⟨mkRat 3 10, mkRat 11 10, 0⟩),
   ("RightForearm", ⟨mkRat 4 10, mkRat 9 10, 0⟩),
   ("RightHand", ⟨mkRat 5 10, mkRat 8 10, 0⟩),
   ("LeftThumb", ⟨mkRat (-48) 100, mkRat 82 100, mkRat 2 100⟩),
   ("LeftIndex", ⟨mkRat (-52) 100, mkRat 85 100, 0⟩),
   ("LeftMiddle", ⟨mkRat (-53) 100, mkRat 85 100, 0⟩),
   ("LeftRing", ⟨mkRat (-52) 100, mkRat 84 100, 0⟩),
   ("LeftPinky", ⟨mkRat (-51) 100, mkRat 82 100, 0⟩),
   ("RightThumb", ⟨mkRat 48 100, mkRat 82 100, mkRat 2 100⟩),
   ("RightIndex", ⟨mkRat 52 100, mkRat 85 100, 0⟩),
   ("RightMiddle", ⟨mkRat 53 100, mkRat 85 100, 0⟩),
   ("RightRing", ⟨mkRat 52 100, mkRat 84 100, 0⟩),
   ("RightPinky", ⟨mkRat 51 100, mkRat 82 100, 0⟩)]

/-- `Avatar3DService.createDefaultPose`: every skeleton bone at its default
position with zero rotation, neutral expression. -/
def createDefaultPose (now : Int) : AvatarPose :=
  { timestamp := now,
    bones := avatarSkeleton.map (fun b =>
      { name := b.1, position := b.2, rotation := ⟨0, 0, 0⟩ }),
    facialExpression := some ("neutral"),
    duration := 1000 }

/-- `Avatar3DService.calculateFingerRotation`: bend angle from base and tip
landmarks of a finger. -/
def calculateFingerRotationE (trig : TrigModel) (landmarks : List Rat)
    (startIdx endIdx : Nat) : Except String Vec3 := do
  let baseX ← jsIdx landmarks (startIdx * 3)
  let baseY ← jsIdx landmarks (startIdx * 3 + 1)
  let tipX ← jsIdx landmarks (endIdx * 3)
  let tipY ← jsIdx landmarks (endIdx * 3 + 1)
  let dx := ratSub tipX baseX
  let dy := ratSub tipY baseY
  let angle := trig.atan2 dy dx
  return ⟨ratMul (trig.sin angle) (mkRat 5 10), 0,
          ratMul (trig.cos angle) (mkRat 5 10)⟩

/-- `Avatar3DService.generateGenericPoseFromLandmarks`: default pose when no
usable hand (no hand or fewer than 63 flat coordinates), otherwise a
right-hand pose built from the wrist and the five fingertip landmarks. -/
def generateGenericPoseFromLandmarksE (trig : TrigModel) (now : Int)
    (landmarks : List (List Rat)) : Except String AvatarPose := do
  if landmarks.length == 0 || (landmarks.headD []).length < 63 then
    return createDefaultPose now
  let handLandmarks := landmarks.headD []
  let wristX ← jsIdx handLandmarks 0
  let wristY ← jsIdx handLandmarks 1
  let wristZ := jsIdxD handLandmarks 2
  let thumbX ← jsIdx handLandmarks 12
  let thumbY ← jsIdx handLandmarks 13
  let thumbZ := jsIdxD handLandmarks 14
  let thumbRot ← calculateFingerRotationE trig handLandmarks 1 4
  let indexX ← jsIdx handLandmarks 24
  let indexY ← jsIdx handLandmarks 25
  let indexZ := jsIdxD handLandmarks 26
  let indexRot ← calculateFingerRotationE trig handLandmarks 5 8
  let middleX ← jsIdx handLandmarks 36
  let middleY ← jsIdx handLandmarks 37
  let middleZ := jsIdxD handLandmarks 38
  let middleRot ← calculateFingerRotationE trig handLandmarks 9 12
  let ringX ← jsIdx handLandmarks 48
  let ringY ← jsIdx handLandmarks 49
  let ringZ := jsIdxD handLandmarks 50
  let ringRot ← calculateFingerRotationE trig handLandmarks 13 16
  let pinkyX ← jsIdx handLandmarks 60
  let pinkyY ← jsIdx handLandmarks 61
  let pinkyZ := jsIdxD handLandmarks 62
  let pinkyRot ← calculateFingerRotationE trig handLandmarks 17 20
  return { timestamp := now,
           bones :=
             [⟨"RightHand", ⟨wristX, wristY, wristZ⟩, ⟨0, 0, 0⟩⟩,
              ⟨"RightThumb", ⟨thumbX, thumbY, thumbZ⟩, thumbRot⟩,
              ⟨"RightIndex", ⟨indexX, indexY, indexZ⟩, indexRot⟩,
              ⟨"RightMiddle", ⟨middleX, middleY, middleZ⟩, middleRot⟩,
              ⟨"RightRing", ⟨ringX, ringY, ringZ⟩, ringRot⟩,
              ⟨"RightPinky", ⟨pinkyX, pinkyY, pinkyZ⟩, pinkyRot⟩],
           facialExpression := some ("neutral"),
           duration := 1000 }

/-- `Avatar3DService.createHelloAnimation`. -/
def createHelloAnimationA (now : Int) : List AvatarPose :=
  [{ timestamp := now,
     bones :=
       [⟨"RightUpperArm", ⟨mkRat 3 10, mkRat 13 10, 0⟩, ⟨0, 0, mkRat (-5) 10⟩⟩,
        ⟨"RightForearm", ⟨mkRat 2 10, mkRat 14 10, 0⟩, ⟨0, 0, mkRat (-3) 10⟩⟩,
        ⟨"RightHand", ⟨mkRat 1 10, mkRat 15 10, 0⟩, ⟨0, 0, 0⟩⟩],
     facialExpression := some ("happy"), duration := 500 },
   { timestamp := now + 500,
     bones := [⟨"RightHand", ⟨mkRat 15 100, mkRat 15 10, 0⟩, ⟨0, mkRat 2 10, 0⟩⟩],
     facialExpression := some ("happy"), duration := 300 },
   { timestamp := now + 800,
     bones := [⟨"RightHand", ⟨mkRat 5 100, mkRat 15 10, 0⟩, ⟨0, mkRat (-2) 10, 0⟩⟩],
     facialExpression := some ("happy"), duration := 300 }]

/-- `Avatar3DService.createGoodbyeAnimation`: the hello poses with a final
hand-lowering pose appended. -/
def createGoodbyeAnimationA (now : Int) : List AvatarPose :=
  createHelloAnimationA now ++
  [{ timestamp := now + 1100,
     bones :=
       [⟨"RightUpperArm", ⟨mkRat 3 10, mkRat 11 10, 0⟩, ⟨0, 0, 0⟩⟩,
        ⟨"RightForearm", ⟨mkRat 4 10, mkRat 9 10, 0⟩, ⟨0, 0, 0⟩⟩,
        ⟨"RightHand", ⟨mkRat 5 10, mkRat 8 10, 0⟩, ⟨0, 0, 0⟩⟩],
     facialExpression := some ("neutral"), duration := 800 }]

/-- `Avatar3DService.createThankYouAnimation`. -/
def createThankYouAnimationA (now : Int) : List AvatarPose :=
  [{ timestamp := now,
     bones :=
       [⟨"RightHand", ⟨mkRat 1 10, mkRat 14 10, mkRat 1 10⟩, ⟨0, 0, 0⟩⟩,
        ⟨"Head", ⟨0, mkRat 16 10, 0⟩, ⟨mkRat 1 10, 0, 0⟩⟩],
     facialExpression := some ("happy"), duration := 1000 }]

/-- `Avatar3DService.createPleaseAnimation`. -/
def createPleaseAnimationA (now : Int) : List AvatarPose :=
  [{ timestamp := now,
     bones := [⟨"RightHand", ⟨mkRat 1 10, mkRat 12 10, mkRat 1 10⟩, ⟨0, 0, mkRat 2 10⟩⟩],
     facialExpression := some ("questioning"), duration := 1200 }]

/-- `Avatar3DService.createYesAnimation`. -/
def createYesAnimationA (now : Int) : List AvatarPose :=
  [{ timestamp := now,
     bones := [⟨"Head", ⟨0, mkRat 16 10, 0⟩, ⟨mkRat 3 10, 0, 0⟩⟩],
     facialExpression := some ("neutral"), duration := 600 },
   { timestamp := now + 600,
     bones := [⟨"Head", ⟨0, mkRat 16 10, 0⟩, ⟨mkRat (-1) 10, 0, 0⟩⟩],
     facialExpression := some ("neutral"), duration := 400 }]

/-- `Avatar3DService.createNoAnimation`. -/
def createNoAnimationA (now : Int) : List AvatarPose :=
  [{ timestamp := now,
     bones := [⟨"Head", ⟨0, mkRat 16 10, 0⟩, ⟨0, mkRat 3 10, 0⟩⟩],
     facialExpression := some ("serious"), duration := 400 },
   { timestamp := now + 400,
     bones := [⟨"Head", ⟨0, mkRat 16 10, 0⟩, ⟨0, mkRat (-3) 10, 0⟩⟩],
     facialExpression := some ("serious"), duration := 400 }]

/-- `Avatar3DService.createHelpAnimation`. -/
def createHelpAnimationA (now : Int) : List AvatarPose :=
  [{ timestamp := now,
     bones :=
       [⟨"LeftHand", ⟨mkRat (-3) 10, mkRat 11 10, 0⟩, ⟨0, 0, 0⟩⟩,
        ⟨"RightHand", ⟨mkRat (-2) 10, mkRat 12 10, 0⟩, ⟨0, 0, mkRat 3 10⟩⟩],
     facialExpression := some ("concerned"), duration := 1200 }]

/-- `Avatar3DService.createStopAnimation`. -/
def createStopAnimationA (now : Int) : List AvatarPose :=
  [{ timestamp := now,
     bones :=
       [⟨"RightUpperArm", ⟨mkRat 2 10, mkRat 13 10, 0⟩, ⟨0, 0, mkRat (-8) 10⟩⟩,
        ⟨"RightForearm", ⟨mkRat 1 10, mkRat 15 10, 0⟩, ⟨0, 0, 0⟩⟩,
        ⟨"RightHand", ⟨0, mkRat 16 10, 0⟩, ⟨0, 0, 0⟩⟩],
     facialExpression := some ("serious"), duration := 1500 }]

/-- `Avatar3DService.createWaterAnimation`. -/
def createWaterAnimationA (now : Int) : List AvatarPose :=
  [{ timestamp := now,
     bones := [⟨"RightHand", ⟨mkRat 2 10, mkRat 13 10, 0⟩, ⟨0, 0, mkRat 5 10⟩⟩],
     facialExpression := some ("neutral"), duration := 1000 }]

/-- `Avatar3DService.createFoodAnimation`. -/
def createFoodAnimationA (now : Int) : List AvatarPose :=
  [{ timestamp := now,
     bones := [⟨"RightHand", ⟨mkRat 1 10, mkRat 14 10, mkRat 1 10⟩, ⟨0, 0, mkRat 3 10⟩⟩],
     facialExpression := some ("questioning"), duration := 800 }]

/-- `Avatar3DService.createBathroomAnimation`. -/
def createBathroomAnimationA (now : Int) : List AvatarPose :=
  [{ timestamp := now,
     bones := [⟨"RightIndex", ⟨mkRat 3 10, mkRat 12 10, 0⟩, ⟨0, 0, mkRat 2 10⟩⟩],
     facialExpression := some ("questioning"), duration := 1000 }]

/-- `Avatar3DService.createSorryAnimation`. -/
def createSorryAnimationA (now : Int) : List AvatarPose :=
  [{ timestamp := now,
     bones :=
       [⟨"RightHand", ⟨mkRat 1 10, mkRat 12 10, mkRat 1 10⟩, ⟨0, 0, mkRat 4 10⟩⟩,
        ⟨"Head", ⟨0, mkRat 16 10, 0⟩, ⟨mkRat 2 10, 0, 0⟩⟩],
     facialExpression := some ("concerned"), duration := 1200 }]

/-- `Avatar3DService.createILoveYouAnimation`. -/
def createILoveYouAnimationA (now : Int) : List AvatarPose :=
  [{ timestamp := now,
     bones :=
       [⟨"RightHand", ⟨mkRat 3 10, mkRat 13 10, 0⟩, ⟨0, 0, 0⟩⟩,
        ⟨"RightThumb", ⟨mkRat 32 100, mkRat 132 100, mkRat 2 100⟩, ⟨0, mkRat 5 10, 0⟩⟩,
        ⟨"RightIndex", ⟨mkRat 35 100, mkRat 135 100, 0⟩, ⟨0, 0, mkRat 3 10⟩⟩,
        ⟨"RightPinky", ⟨mkRat 28 100, mkRat 132 100, 0⟩, ⟨0, 0, mkRat (-3) 10⟩⟩],
     facialExpression := some ("happy"), duration := 2000 }]

/-- `Avatar3DService.getExtendedFingersForNumber` (JS numeric-key object
lookup with the closed-fist default). -/
def getExtendedFingersForNumber (number : Nat) : List Bool :=
  match number with
  | 0 => [false, false, false, false, false]
  | 1 => [false, true, false, false, false]
  | 2 => [false, true, true, false, false]
  | 3 => [true, true, true, false, false]
  | 4 => [false, true, true, true, true]
  | 5 => [true, true, true, true, true]
  | _ => [false, false, false, false, false]

/-- The `fingerNames` array of `createNumberAnimation`. -/
def fingerNames : List String :=
  ["RightThumb", "RightIndex", "RightMiddle", "RightRing", "RightPinky"]

/-- `Avatar3DService.createNumberAnimation`. -/
def createNumberAnimationA (now : Int) (number : Nat) : List AvatarPose :=
  let extendedFingers := getExtendedFingersForNumber number
  let bones := extendedFingers.enum.map (fun p =>
    let index := p.1
    let extended := p.2
    ({ name := fingerNames.getD index (String.mk []),
       position :=
         ⟨ratAdd (mkRat 3 10) (ratMul (intToRat ((index : Int) - 2)) (mkRat 2 100)),
          if extended then ratAdd (mkRat 13 10) (mkRat 8 100)
          else ratSub (mkRat 13 10) (mkRat 2 100),
          0⟩,
       rotation :=
         if extended then ⟨0, 0, mkRat 2 10⟩
         else ⟨mkRat 8 10, 0, 0⟩ } : AvatarBone))
  [{ timestamp := now, bones := bones,
     facialExpression := some ("neutral"), duration := 1500 }]

/-- `Avatar3DService.createLetterAnimation` (the per-letter shape table does
not influence the returned pose in the source). -/
def createLetterAnimationA (now : Int) (_letter : String) : List AvatarPose :=
  [{ timestamp := now,
     bones := [⟨"RightHand", ⟨mkRat 3 10, mkRat 13 10, 0⟩, ⟨0, 0, 0⟩⟩],
     facialExpression := some ("neutral"), duration := 1000 }]

/-- `Avatar3DService.gestureAnimations` in insertion order, parameterized by
the construction-time clock the source reads with `Date.now()`. -/
def gestureAnimations (now : Int) : List (String × List AvatarPose) :=
  [("hello", createHelloAnimationA now),
   ("goodbye", createGoodbyeAnimationA now),
   ("thank_you", createThankYouAnimationA now),
   ("please", createPleaseAnimationA now),
   ("yes", createYesAnimationA now),
   ("no", createNoAnimationA now),
   ("help", createHelpAnimationA now),
   ("stop", createStopAnimationA now),
   ("water", createWaterAnimationA now),
   ("food", createFoodAnimationA now),
   ("bathroom", createBathroomAnimationA now),
   ("sorry", createSorryAnimationA now),
   ("i_love_you", createILoveYouAnimationA now),
   ("one", createNumberAnimationA now 1),
   ("two", createNumberAnimationA now 2),
   ("three", createNumberAnimationA now 3),
   ("four", createNumberAnimationA now 4),
   ("five", createNumberAnimationA now 5),
   ("a", createLetterAnimationA now ("A")),
   ("b", createLetterAnimationA now ("B")),
   ("c", createLetterAnimationA now ("C"))]

/-- JS `this.gestureAnimations.get(gesture)`. -/
def gestureAnimationsGet (now : Int) (g : String) : Option (List AvatarPose) :=
  ((gestureAnimations now).find? (fun p => p.1 == g)).map (fun p => p.2)

/-- JS truthiness of the optional `recognizedGesture` field: `undefined`
and the empty string are falsy. -/
def truthyOpt : Option String → Bool
  | none => false
  | some s => !(s == "")

/-- Body of `Avatar3DService.generateAvatarPose` (inside its `try`):
generic landmark pose for a falsy or `unknown` gesture, the middle pose of
the stored animation for a recognized gesture with a non-empty animation,
generic pose otherwise. -/
def generateAvatarPoseE (trig : TrigModel) (now : Int)
    (signData : SignLanguageData) : Except String AvatarPose := do
  if !(truthyOpt signData.recognizedGesture) ||
      signData.recognizedGesture == some ("unknown") then
    generateGenericPoseFromLandmarksE trig now signData.landmarks
  else
    match gestureAnimationsGet now (signData.recognizedGesture.getD (String.mk [])) with
    | some anims =>
      if anims.length > 0 then do
        let mainPose ← jsIdx anims (anims.length / 2)
        return mainPose
      else
        generateGenericPoseFromLandmarksE trig now signData.landmarks
    | none => generateGenericPoseFromLandmarksE trig now signData.landmarks

/-- `Avatar3DService.generateAvatarPose`: the `catch` clause returns the
default pose on any internal error. -/
def generateAvatarPose (trig : TrigModel) (now : Int)
    (signData : SignLanguageData) : AvatarPose :=
  match generateAvatarPoseE trig now signData with
  | Except.ok p => p
  | Except.error _ => createDefaultPose now

/-! ## RealisticVoiceService.validateAudioFormat -/

/-- `VoiceData` of types/index.ts; the buffer is optional because
`validateAudioFormat` explicitly guards against a missing buffer at
runtime, and only its `byteLength` is inspected, so the buffer is carried
as its byte list. -/
structure VoiceData where
  audioBuffer : Option (List Nat)
  duration : Rat
  sampleRate : Nat
  timestamp : Int
  sessionId : String
deriving DecidableEq, Repr

/-- The `validSampleRates` array of `validateAudioFormat`. -/
def validSampleRates : List Nat :=
  [16000, 22050, 44100, 48000]

/-- `RealisticVoiceService.validateAudioFormat`: requires a present buffer,
duration within `[0.1, 30]`, a whitelisted sample rate, and a non-empty
buffer. -/
def validateAudioFormat (audioData : VoiceData) : Bool :=
  match audioData.audioBuffer with
  | none => false
  | some buf =>
    decide (mkRat 1 10 ≤ audioData.duration) &&
    decide (audioData.duration ≤ 30) &&
    validSampleRates.contains audioData.sampleRate &&
    decide (0 < buf.length)

/-! ## RealisticWebSocketHandler.ts: dispatch, busy flags, liveness timer

The handler's `processingQueue` is a `Map<string, boolean>` keyed by
`sign-${clientId}` / `voice-${clientId}`. Awaited service calls of the
perception and voice stages (`processFrame`, `speechToText`,
`generateVoiceFromGesture`) can resolve or reject; each dispatch is modeled
as a function of the inbound payload and of the outcomes of those awaited
calls, returning the ordered list of `socket.emit` calls, the final
processing-queue state, and whether the perception-stage call was issued.
`getGestureDescription` of the sign-language service is a total synchronous
lookup and is passed as a function parameter. -/

/-- Resolution or rejection of an awaited service call. -/
inductive Outcome (α : Type) where
  | ok (a : α)
  | threw
deriving DecidableEq, Repr

/-- The result emitted for `translation-result` (types/index.ts
`TranslationResult`, with `originalType` one of `sign`/`voice`). -/
inductive OrigType where
  | sign
  | voice
deriving DecidableEq, Repr

/-- `TranslationResult` of types/index.ts. -/
structure TranslationRecord where
  originalType : OrigType
  translatedText : String
  confidence : Rat
  timestamp : Int
  sessionId : String
deriving DecidableEq, Repr

/-- One `socket.emit` call of the video-frame or audio-data dispatch path,
with the payload fields the events carry. -/
inductive Emit where
  | signDetected (signData : SignLanguageData)
  | avatarPoseUpdate (pose : AvatarPose)
  | translationResult (result : TranslationRecord)
  | autoVoicePlayed (gesture voiceText : String) (confidence : Rat)
      (timestamp : Int)
  | textRecognized (text : String) (confidence : Rat) (sessionId : String)
      (timestamp : Int)
  | autoAvatarGesture (gesture originalText gestureDescription : String)
      (timestamp : Int)
  | signDescription (originalText description : String) (timestamp : Int)
  | errorEvent (message code : String)
deriving DecidableEq, Repr

/-- The handler's `processingQueue` map (association list in insertion
order). -/
abbrev ProcQueue := List (String × Bool)

/-- JS `this.processingQueue.get(key)`: an absent key is `undefined`, which
is falsy where the handler tests it. -/
def procGet (q : ProcQueue) (key : String) : Bool :=
  ((q.find? (fun p => p.1 == key)).map (fun p => p.2)).getD false

/-- JS `this.processingQueue.set(key, v)`: replace the existing entry in
place (keys are unique in a JS `Map`), or append a new one. -/
def procSet : ProcQueue → String → Bool → ProcQueue
  | [], key, v => [(key, v)]
  | p :: rest, key, v =>
    if p.1 == key then (key, v) :: rest else p :: procSet rest key v

/-- The gesture-processing busy-flag key `sign-${clientId}`. -/
def signKey (clientId : String) : String :=
  ("sign-") ++ clientId

/-- The speech-processing busy-flag key `voice-${clientId}`. -/
def voiceKey (clientId : String) : String :=
  ("voice-") ++ clientId

/-- `RealisticWebSocketHandler.processSignToVoiceAuto`: emits a
`translation-result` and an `auto-voice-played` on success, and one `error`
event if the awaited voice generation rejects (its own `catch`); a falsy or
`unknown` gesture returns without emitting. -/
def processSignToVoiceAuto (now : Int) (signData : SignLanguageData)
    (voiceRes : Outcome String) : List Emit :=
  if !(truthyOpt signData.recognizedGesture) ||
      signData.recognizedGesture == some ("unknown") then
    []
  else
    match voiceRes with
    | Outcome.ok voiceText =>
      [Emit.translationResult
        { originalType := OrigType.sign, translatedText := voiceText,
          confidence := signData.confidence, timestamp := now,
          sessionId := signData.sessionId },
       Emit.autoVoicePlayed (signData.recognizedGesture.getD (String.mk []))
         voiceText signData.confidence now]
    | Outcome.threw =>
      [Emit.errorEvent ("Failed to auto-convert sign to voice")
        ("AUTO_SIGN_TO_VOICE_ERROR")]

/-- Result of one dispatch: the ordered emissions, the final
`processingQueue`, and whether the perception-stage call was issued. -/
structure DispatchResult where
  emits : List Emit
  queue : ProcQueue
  perceptionCalled : Bool
deriving DecidableEq, Repr

/-- The `video-frame` dispatch (RealisticWebSocketHandler.ts lines 71-119):
drop when the `sign-` busy flag is set (the `finally` still runs on this
early return), otherwise set the flag, process the frame, emit
`sign-detected` and `avatar-pose-update` for a non-null observation, chain
into `processSignToVoiceAuto` above the 0.7 confidence threshold, emit one
`error` on a rejection, and clear the flag in `finally` on every path. -/
def videoFrameDispatch (trig : TrigModel) (now : Int)
    (getDesc : String → String) (q : ProcQueue) (clientId sessionId : String)
    (frameRes : Outcome (Option SignLanguageData)) (voiceRes : Outcome String) :
    DispatchResult :=
  let key := signKey clientId
  if procGet q key then
    { emits := [], queue := procSet q key false, perceptionCalled := false }
  else
    let q1 := procSet q key true
    match frameRes with
    | Outcome.threw =>
      { emits := [Emit.errorEvent ("Failed to process video frame")
          ("REALISTIC_SIGN_PROCESSING_ERROR")],
        queue := procSet q1 key false, perceptionCalled := true }
    | Outcome.ok none =>
      { emits := [], queue := procSet q1 key false, perceptionCalled := true }
    | Outcome.ok (some signData0) =>
      let signData1 := { signData0 with sessionId := sessionId }
      let signData :=
        if truthyOpt signData1.recognizedGesture &&
            !(signData1.recognizedGesture == some ("unknown")) then
          { signData1 with
            gestureDescription := some (getDesc
              (signData1.recognizedGesture.getD (String.mk []))) }
        else signData1
      let avatarPose := generateAvatarPose trig now signData
      let base := [Emit.signDetected signData, Emit.avatarPoseUpdate avatarPose]
      let chain :=
        if truthyOpt signData.recognizedGesture &&
            !(signData.recognizedGesture == some ("unknown")) &&
            decide (signData.confidence > mkRat 7 10) then
          processSignToVoiceAuto now signData voiceRes
        else []
      { emits := base ++ chain, queue := procSet q1 key false,
        perceptionCalled := true }

/-- A `speechToText` result. -/
structure SpeechResult where
  text : String
  confidence : Rat
deriving DecidableEq, Repr

/-- `RealisticWebSocketHandler.generateSignDescription` (JS
`text.split(' ')`, first six words joined). -/
def generateSignDescriptionH (text : String) : String :=
  let words := text.splitOn (" ")
  let shortText := String.intercalate (" ") (words.take 6)
  if words.length ≤ 3 then
    ("Spell out: \"") ++ shortText ++ "\" using fingerspelling"
  else
    ("Sign language representation: \"") ++ shortText ++
      "\" - Use combination of gestures and fingerspelling"

/-- `RealisticWebSocketHandler.processVoiceToSignAuto`: play the extracted
gesture and emit `translation-result` (confidence 0.85) plus
`auto-avatar-gesture`, or fall back to a generated sign description with
`translation-result` (confidence 0.6) plus `sign-description`; one `error`
event if the awaited gesture playback rejects. -/
def processVoiceToSignAuto (now : Int) (text sessionId : String)
    (getDesc : String → String) (playRes : Outcome Unit) : List Emit :=
  match extractGestureFromText text with
  | some gesture =>
    match playRes with
    | Outcome.ok _ =>
      [Emit.translationResult
        { originalType := OrigType.voice,
          translatedText := ("Sign gesture: ") ++ gesture,
          confidence := mkRat 85 100, timestamp := now,
          sessionId := sessionId },
       Emit.autoAvatarGesture gesture text (getDesc gesture) now]
    | Outcome.threw =>
      [Emit.errorEvent ("Failed to auto-convert voice to sign")
        ("AUTO_VOICE_TO_SIGN_ERROR")]
  | none =>
    let signDescription := generateSignDescriptionH text
    [Emit.translationResult
      { originalType := OrigType.voice, translatedText := signDescription,
        confidence := mkRat 6 10, timestamp := now, sessionId := sessionId },
     Emit.signDescription text signDescription now]

/-- The `audio-data` dispatch (RealisticWebSocketHandler.ts lines 122-166):
drop when the `voice-` busy flag is set (the `finally` still runs),
otherwise set the flag, reject an invalid audio format with one `error`
event and an early return, emit `text-recognized` for a recognized clip and
chain into `processVoiceToSignAuto`, emit one `error` on a rejection, and
clear the flag in `finally` on every path. -/
def audioDataDispatch (now : Int) (getDesc : String → String) (q : ProcQueue)
    (clientId sessionId : String) (data : VoiceData)
    (speechRes : Outcome SpeechResult) (playRes : Outcome Unit) :
    DispatchResult :=
  let key := voiceKey clientId
  if procGet q key then
    { emits := [], queue := procSet q key false, perceptionCalled := false }
  else
    let q1 := procSet q key true
    if !(validateAudioFormat data) then
      { emits := [Emit.errorEvent ("Invalid audio format")
          ("AUDIO_FORMAT_ERROR")],
        queue := procSet q1 key false, perceptionCalled := false }
    else
      match speechRes with
      | Outcome.threw =>
        { emits := [Emit.errorEvent ("Failed to process audio data")
            ("REALISTIC_VOICE_PROCESSING_ERROR")],
          queue := procSet q1 key false, perceptionCalled := true }
      | Outcome.ok speechResult =>
        { emits := Emit.textRecognized speechResult.text
            speechResult.confidence sessionId now ::
            processVoiceToSignAuto now speechResult.text sessionId getDesc
              playRes,
          queue := procSet q1 key false, perceptionCalled := true }

/-! ### Interleaving of `video-frame` dispatches for one client

The handler body is synchronous from the busy-flag check to the first
`await` (`processFrame`), so that entry segment runs atomically on the
event loop; the remainder (including the `finally`) runs when the awaited
call resolves. `inFlight` counts unresolved `processFrame` calls for the
client. -/

/-- State of one client's gesture-processing lane. -/
structure CoordState where
  queue : ProcQueue
  inFlight : Nat
deriving DecidableEq, Repr

/-- Arrival of a `video-frame` event: the synchronous entry segment. When
the busy flag is set the handler returns early, and the `try`/`finally`
still runs the cleanup `processingQueue.set(key, false)` (lines 73-75 and
116-118); otherwise the flag is set and a `processFrame` call starts. The
boolean reports whether a perception call was started. -/
def videoFrameArrive (s : CoordState) (clientId : String) :
    CoordState × Bool :=
  let key := signKey clientId
  if procGet s.queue key then
    ({ queue := procSet s.queue key false, inFlight := s.inFlight }, false)
  else
    ({ queue := procSet s.queue key true, inFlight := s.inFlight + 1 }, true)

/-- Resolution of one in-flight `processFrame` call: the rest of the
handler runs and the `finally` clears the flag. -/
def videoFrameResolve (s : CoordState) (clientId : String) : CoordState :=
  { queue := procSet s.queue (signKey clientId) false,
    inFlight := s.inFlight - 1 }

/-! ### The periodic health check (lines 310-325) -/

/-- The health-check interval of the source, 10000 ms. -/
def healthCheckIntervalMs : Nat := 10000

/-- Tick times of the `setInterval` timer within the first `n`
milliseconds after connect: one tick per elapsed full interval. -/
def tickTimes (n : Nat) : List Nat :=
  (List.range (n / healthCheckIntervalMs)).map
    (fun k => (k + 1) * healthCheckIntervalMs)

/-- Timestamps of the `health-check` events a client receives within `n`
milliseconds of connecting: at each tick the callback checks
`connectedClients.has(clientId)` and emits, and at the first tick where
the client is absent it calls `clearInterval`, so no later tick runs. -/
def emittedHealthCheckTimes (connectedAt : Nat → Bool) (n : Nat) :
    List Nat :=
  (tickTimes n).takeWhile connectedAt

/-! ## Fixtures used by concrete witness instances -/

/-- A trigonometry model for concrete evaluations (its values never affect
any property proved below). -/
def trigZero : TrigModel :=
  ⟨fun _ _ => 0, fun _ => 0, fun _ => 0⟩

/-- A flat 63-coordinate hand whose wrist `y` (index 1) is `0.5` while every
fingertip `y` is `0.3`: all fingertips above the wrist the way the
classifier measures it. -/
def allUpLandmarks : List Rat :=
  (List.range 63).map (fun i => if i == 1 then mkRat 5 10 else mkRat 3 10)

/-- A concrete observation carrying `allUpLandmarks` with declared
confidence 0.9. -/
def allUpObservation : SignLanguageData :=
  { landmarks := [allUpLandmarks], confidence := mkRat 9 10, timestamp := 0,
    sessionId := "s" }

/-- Discriminator: is this emission a `sign-detected` event? -/
def emitIsSignDetected : Emit → Bool
  | Emit.signDetected _ => true
  | _ => false

/-- Discriminator: is this emission an `avatar-pose-update` event? -/
def emitIsAvatarPoseUpdate : Emit → Bool
  | Emit.avatarPoseUpdate _ => true
  | _ => false

/-- Discriminator: is this emission a `translation-result` event? -/
def emitIsTranslationResult : Emit → Bool
  | Emit.translationResult _ => true
  | _ => false

/-- Discriminator: is this emission a `translation-result` event with the
given `originalType`? -/
def emitIsTranslationResultOf (t : OrigType) : Emit → Bool
  | Emit.translationResult r => r.originalType == t
  | _ => false

/-- Discriminator: is this emission an `auto-voice-played` event? -/
def emitIsAutoVoicePlayed : Emit → Bool
  | Emit.autoVoicePlayed _ _ _ _ => true
  | _ => false

/-! # Theorems -/

/-! ## Shared helper lemmas -/

/-- Reading back a key just written into the processing queue yields the
written value. -/
theorem procGet_procSet_self (q : ProcQueue) (key : String) (v : Bool) :
    procGet (procSet q key v) key = v := by
  induction q with
  | nil => simp [procGet, procSet]
  | cons p rest ih =>
    by_cases h : p.1 == key
    · simp [procGet, procSet, h]
    · simp only [procSet, h, Bool.false_eq_true, if_false]
      simpa [procGet, List.find?, h] using ih

/-- `ratMin` never exceeds its second argument. -/
theorem ratMin_le_right (a b : Rat) : ratMin a b ≤ b := by
  unfold ratMin
  split
  · assumption
  · exact le_refl b

/-- Reduction of the `Except` monad bind on a success value. -/
theorem except_bind_ok {α β : Type} (a : α) (f : α → Except String β) :
    (Except.ok a : Except String α) >>= f = f a := rfl

/-- Reduction of the `Except` monad bind on an error value. -/
theorem except_bind_error {α β : Type} (e : String)
    (f : α → Except String β) :
    (Except.error e : Except String α) >>= f = Except.error e := rfl

/-- `List.find?` returns the element at the first index satisfying the
predicate. -/
theorem find?_of_first_match {α : Type} (p : α → Bool) (l : List α) (i : Nat)
    (hi : i < l.length) (hp : p (l.get ⟨i, hi⟩) = true)
    (hfirst : ∀ j, (hj : j < i) → p (l.get ⟨j, Nat.lt_trans hj hi⟩) = false) :
    l.find? p = some (l.get ⟨i, hi⟩) := by
  induction l generalizing i with
  | nil => exact absurd hi (Nat.not_lt_zero i)
  | cons a t ih =>
    cases i with
    | zero =>
      simp only [List.get] at hp
      simp [List.find?, hp]
    | succ n =>
      have ha : p a = false := hfirst 0 (Nat.zero_lt_succ n)
      simp only [List.get] at hp ⊢
      rw [List.find?]
      simp only [ha]
      exact ih n (Nat.lt_of_succ_lt_succ hi) hp
        (fun j hj => hfirst (j + 1) (Nat.succ_lt_succ hj))

/-! ## C4: `textToSign` on empty and whitespace-only input -/

/-- C4 counterexample: `textToSign("")` does **not** return "no result".
JS `"".split(/\s+/)` yields `[""]`, and the empty token substring-matches
the first `wordToGestureMap` key (`"hello".includes("")` is `true`), so the
partial-match branch fires: the result is non-null with confidence 0.6 and
the `hello` wave animation. Whitespace-only input behaves the same with
two empty tokens. -/
theorem textToSign_empty_input_counterexample :
    textToSign ("") ≠ none ∧
    (textToSign ("")).map (fun r => r.confidence) = some (mkRat 3 5) ∧
    textToSign (" ") ≠ none ∧
    (textToSign (" ")).map (fun r => r.confidence) = some (mkRat 3 5) := by
  refine ⟨?_, ?_, ?_, ?_⟩ <;> decide

/-- C4 amended: `textToSign` applied to the empty string (or to
whitespace-only input) does not crash but returns a non-null result of
confidence 0.6 whose animation consists of one `hello` wave fragment per
empty token, because each empty token substring-matches the first
keyword-map entry (`hello`). -/
theorem textToSign_empty_input_partial_matches_hello :
    textToSign ("") =
      some { signDescription := "Wave hand with open palm, fingers extended",
             animations := createWaveAnimation,
             confidence := mkRat 3 5 } ∧
    textToSign (" ") =
      some { signDescription :=
               ("Wave hand with open palm, fingers extended, then ") ++
               "Wave hand with open palm, fingers extended",
             animations := createWaveAnimation ++ createWaveAnimation,
             confidence := mkRat 3 5 } := by
  refine ⟨?_, ?_⟩ <;> decide

/-! ## C6: `textToSign` on `"hello"` and on an unmatchable token -/

/-- C6: `textToSign("hello")` returns a result with confidence 0.9 (hence
at least 0.9) and the non-empty wave animation; `textToSign("xyzzyqq")`, a
token matching no vocabulary entry in either direction, returns a non-null
result with confidence 0.4 whose animation is exactly the fingerspelling
fallback for the token. -/
theorem textToSign_hello_and_fingerspell_fallback :
    (textToSign ("hello")).map (fun r => r.confidence) = some (mkRat 9 10) ∧
    (textToSign ("hello")).map (fun r => r.animations.isEmpty) = some false ∧
    (textToSign ("xyzzyqq")).map (fun r => r.confidence) = some (mkRat 2 5) ∧
    (textToSign ("xyzzyqq")).map (fun r => r.animations) =
      some [createFingerspellingAnimation (("xyzzyqq").data)] := by
  refine ⟨?_, ?_, ?_, ?_⟩ <;> decide

/-! ## C10: `validateAudioFormat` -/

/-- C10: `validateAudioFormat` accepts exactly the payloads with a present
non-empty buffer, duration in the closed range `[0.1, 30]`, and one of the
four whitelisted sample rates; everything else (including a missing
buffer) is rejected with `false`, never a thrown error (the function is
total). -/
theorem validateAudioFormat_iff (audioData : VoiceData) :
    validateAudioFormat audioData = true ↔
      (∃ buf, audioData.audioBuffer = some buf ∧ 0 < buf.length) ∧
      mkRat 1 10 ≤ audioData.duration ∧ audioData.duration ≤ 30 ∧
      audioData.sampleRate ∈ [16000, 22050, 44100, 48000] := by
  cases hbuf : audioData.audioBuffer with
  | none => simp [validateAudioFormat, hbuf]
  | some buf =>
    simp only [validateAudioFormat, hbuf, Bool.and_eq_true, decide_eq_true_eq,
      validSampleRates, List.elem_iff]
    constructor
    · rintro ⟨⟨⟨hlo, hhi⟩, hsr⟩, hlen⟩
      exact ⟨⟨buf, rfl, hlen⟩, hlo, hhi, hsr⟩
    · rintro ⟨⟨buf2, hbeq, hlen⟩, hlo, hhi, hsr⟩
      cases hbeq
      exact ⟨⟨⟨hlo, hhi⟩, hsr⟩, hlen⟩

/-- C10 witness: a concrete accepted payload, via the characterization. -/
theorem validateAudioFormat_iff_witness :
    validateAudioFormat
      { audioBuffer := some [7], duration := 1, sampleRate := 44100,
        timestamp := 0, sessionId := "s" } = true := by
  exact (validateAudioFormat_iff _).mpr
    ⟨⟨[7], rfl, by decide⟩, by decide, by decide, by decide⟩

/-! ## C9: the periodic health check -/

/-- C9: with the fixed 10000 ms interval, a client connected throughout the
first `n` milliseconds receives exactly `⌊n / 10000⌋` health-check events,
and a client that leaves the registry at time `t` receives no health-check
event with timestamp greater than `t + 10000`: the timer re-checks registry
membership each tick and self-cancels at the first failed check (in fact
every received timestamp is at most `t`). -/
theorem healthCheck_tick_count_and_disconnect_bound (n t : Nat) :
    (emittedHealthCheckTimes (fun _ => true) n).length =
      n / healthCheckIntervalMs ∧
    ∀ s ∈ emittedHealthCheckTimes (fun s => decide (s ≤ t)) n,
      s ≤ t + healthCheckIntervalMs := by
  have htake : ∀ (l : List Nat), l.takeWhile (fun _ => true) = l := by
    intro l
    induction l with
    | nil => rfl
    | cons a tl ih => simp [List.takeWhile, ih]
  constructor
  · simp [emittedHealthCheckTimes, tickTimes, htake]
  · intro s hs
    have hp := List.mem_takeWhile_imp hs
    have : s ≤ t := of_decide_eq_true hp
    omega

/-- C9 witness: 3 ticks in the first 35000 ms for a connected client, and a
tick received before a disconnect at t = 15000 is within the bound. -/
theorem healthCheck_tick_count_witness :
    (emittedHealthCheckTimes (fun _ => true) 35000).length = 3 ∧
    10000 ≤ 15000 + healthCheckIntervalMs := by
  have h := healthCheck_tick_count_and_disconnect_bound 35000 15000
  exact ⟨by simpa using h.1,
    h.2 10000 (by decide)⟩

/-! ## C1: busy-flag drop of a concurrent video frame -/

/-- C1: the silent-drop part of the claim holds — a `video-frame` dispatch
arriving while the session's gesture busy flag is set emits nothing and
does not invoke the perception stage — but the claimed consequence "at most
one gesture-processing call is ever in flight" fails on the code: the
dropped handler's `finally` block sets the flag back to `false`, so a third
frame arriving while the first is still unresolved starts a second
concurrent `processFrame` call (`inFlight = 2` below). -/
theorem videoFrame_drop_clears_flag_second_call_in_flight :
    (videoFrameDispatch trigZero 0 (fun _ => String.mk [])
        [(signKey ("client1"), true)] ("client1") ("sess")
        (Outcome.ok none) (Outcome.ok (String.mk []))).emits = [] ∧
    (videoFrameDispatch trigZero 0 (fun _ => String.mk [])
        [(signKey ("client1"), true)] ("client1") ("sess")
        (Outcome.ok none) (Outcome.ok (String.mk []))).perceptionCalled
      = false ∧
    ((videoFrameArrive (⟨[], 0⟩ : CoordState) ("client1")).1.inFlight = 1 ∧
     (videoFrameArrive
        (videoFrameArrive (⟨[], 0⟩ : CoordState) ("client1")).1
        ("client1")).2 = false ∧
     (videoFrameArrive
        (videoFrameArrive (⟨[], 0⟩ : CoordState) ("client1")).1
        ("client1")).1.queue = [(signKey ("client1"), false)] ∧
     (videoFrameArrive
        (videoFrameArrive
          (videoFrameArrive (⟨[], 0⟩ : CoordState) ("client1")).1
          ("client1")).1
        ("client1")).1.inFlight = 2) := by
  refine ⟨?_, ?_, ?_, ?_, ?_, ?_⟩ <;> decide

/-! ## C5: keyword extraction takes the first matching entry -/

/-- C5: `extractGestureFromText` returns the gesture of the first entry of
the fixed, declared keyword ordering whose keyword is a substring of the
lower-cased input text (later entries, even if they also match, are
ignored). -/
theorem extractGesture_first_matching_keyword
    (text : String) (i : Nat) (hi : i < gestureKeywords.length)
    (hmatch : containsSub (lowerChars text)
      ((gestureKeywords.get ⟨i, hi⟩).1.data) = true)
    (hfirst : ∀ j, (hj : j < i) →
      containsSub (lowerChars text)
        ((gestureKeywords.get ⟨j, Nat.lt_trans hj hi⟩).1.data) = false) :
    extractGestureFromText text = some ((gestureKeywords.get ⟨i, hi⟩).2) := by
  have hfind := find?_of_first_match
    (fun p => containsSub (lowerChars text) p.1.data)
    gestureKeywords i hi hmatch hfirst
  unfold extractGestureFromText findKeywordGesture
  simp [hfind]

/-- C5 witness: `"thank you so much"` matches entry 10 (`thank you` ↦
`thank_you`) and no earlier entry, so extraction returns `thank_you`. -/
theorem extractGesture_first_matching_keyword_witness :
    extractGestureFromText ("thank you so much") = some ("thank_you") := by
  exact extractGesture_first_matching_keyword ("thank you so much") 10
    (by decide) (by decide) (by decide)

/-! ## C7: `signToText` combines confidences conservatively -/

/-- C7: whenever `signToText` returns a result, its confidence is the
`min` of the heuristic classifier's own confidence and the observation's
declared confidence; in particular it never exceeds the observation's
confidence. -/
theorem signToText_confidence_conservative
    (buffer : List (String × Int)) (now : Int) (signData : SignLanguageData)
    (r : SignTranslationResult) (buf2 : List (String × Int))
    (h : signToText buffer now signData = (some r, buf2)) :
    (∃ g, recognizeGestureFromLandmarksE signData.landmarks =
        Except.ok (some g) ∧
        r.confidence = ratMin g.2 signData.confidence) ∧
    r.confidence ≤ signData.confidence := by
  unfold signToText signToTextE at h
  cases hrec : recognizeGestureFromLandmarksE signData.landmarks with
  | error e =>
    rw [hrec] at h
    simp [except_bind_error] at h
  | ok gesture? =>
    rw [hrec] at h
    simp only [except_bind_ok] at h
    cases gesture? with
    | none => simp [pure, Except.pure] at h
    | some gesture =>
      dsimp only at h
      cases hseq : gestureSequenceToText
          (cleanGestureBuffer now (buffer ++ [(gesture.1, now)])) with
      | none =>
        rw [hseq] at h
        simp [pure, Except.pure] at h
      | some translatedText =>
        rw [hseq] at h
        simp only [pure, Except.pure, Prod.mk.injEq,
          Option.some.injEq] at h
        obtain ⟨hr, -⟩ := h
        subst hr
        exact ⟨⟨gesture, rfl, rfl⟩, ratMin_le_right _ _⟩

/-- C7 witness: the all-fingertips-up observation classifies as `hello`
with classifier confidence 0.8, and the returned confidence 0.8 does not
exceed the declared confidence 0.9. -/
theorem signToText_confidence_conservative_witness :
    ({ text := "Hello", confidence := mkRat 8 10,
       gesture := some ("hello") } : SignTranslationResult).confidence ≤
      allUpObservation.confidence := by
  exact (signToText_confidence_conservative [] 1000 allUpObservation
    { text := "Hello", confidence := mkRat 8 10, gesture := some ("hello") }
    [("hello", 1000)] (by decide)).2

/-! ## C3: the busy flag is cleared on every exit path -/

/-- C3: a stage-categorized dispatch that acquires its per-session busy flag
(the flag was clear when the event arrived) leaves the flag clear after it
finishes, on every exit path — normal completion, a rejected service call,
or the invalid-audio-format early return — because the `finally` cleanup
runs on all of them. Both outcomes are quantified, so every path is
covered. -/
theorem busy_flag_cleared_on_every_exit_path
    (trig : TrigModel) (now : Int) (getDesc : String → String)
    (q qa : ProcQueue) (clientId sessionId : String)
    (frameRes : Outcome (Option SignLanguageData)) (voiceRes : Outcome String)
    (data : VoiceData) (speechRes : Outcome SpeechResult)
    (playRes : Outcome Unit)
    (hsign : procGet q (signKey clientId) = false)
    (hvoice : procGet qa (voiceKey clientId) = false) :
    procGet (videoFrameDispatch trig now getDesc q clientId sessionId
        frameRes voiceRes).queue (signKey clientId) = false ∧
    procGet (audioDataDispatch now getDesc qa clientId sessionId data
        speechRes playRes).queue (voiceKey clientId) = false := by
  constructor
  · cases frameRes with
    | threw => simp [videoFrameDispatch, hsign, procGet_procSet_self]
    | ok observation? =>
      cases observation? <;>
        simp [videoFrameDispatch, hsign, procGet_procSet_self]
  · by_cases hv : validateAudioFormat data
    · cases speechRes <;>
        simp [audioDataDispatch, hvoice, hv, procGet_procSet_self]
    · simp [audioDataDispatch, hvoice, hv, procGet_procSet_self]

/-- C3 witness: concrete dispatches through the rejected-frame path and the
invalid-audio-format early-return path both leave their flags clear. -/
theorem busy_flag_cleared_on_every_exit_path_witness :
    procGet (videoFrameDispatch trigZero 0 (fun _ => String.mk []) []
        ("c") ("s") Outcome.threw (Outcome.ok (String.mk []))).queue
      (signKey ("c")) = false ∧
    procGet (audioDataDispatch 0 (fun _ => String.mk []) [] ("c") ("s")
        { audioBuffer := none, duration := 1, sampleRate := 44100,
          timestamp := 0, sessionId := "x" }
        Outcome.threw (Outcome.ok ())).queue (voiceKey ("c")) = false := by
  exact busy_flag_cleared_on_every_exit_path trigZero 0 (fun _ => String.mk [])
    [] [] ("c") ("s") Outcome.threw (Outcome.ok (String.mk []))
    { audioBuffer := none, duration := 1, sampleRate := 44100,
      timestamp := 0, sessionId := "x" }
    Outcome.threw (Outcome.ok ()) (by decide) (by decide)

/-! ## C2: auto-chaining emission counts for a `hello` observation -/

/-- C2: a `video-frame` dispatch whose perception result is a `hello`
observation with confidence 0.75 emits exactly one `sign-detected`, one
`avatar-pose-update`, one `translation-result` with originalType `sign`,
and one `auto-voice-played` (and nothing else); with confidence 0.5 it
emits exactly one `sign-detected` and one `avatar-pose-update` and no
`translation-result` or `auto-voice-played` at all. -/
theorem videoFrame_hello_auto_chain_emit_counts
    (trig : TrigModel) (now ts : Int) (getDesc : String → String)
    (q : ProcQueue) (clientId sessionId origSession voiceText : String)
    (landmarks : List (List Rat))
    (hfree : procGet q (signKey clientId) = false) :
    ((videoFrameDispatch trig now getDesc q clientId sessionId
        (Outcome.ok (some
          { landmarks := landmarks, confidence := mkRat 75 100,
            timestamp := ts, sessionId := origSession,
            recognizedGesture := some ("hello") }))
        (Outcome.ok voiceText)).emits.countP emitIsSignDetected = 1 ∧
     (videoFrameDispatch trig now getDesc q clientId sessionId
        (Outcome.ok (some
          { landmarks := landmarks, confidence := mkRat 75 100,
            timestamp := ts, sessionId := origSession,
            recognizedGesture := some ("hello") }))
        (Outcome.ok voiceText)).emits.countP emitIsAvatarPoseUpdate = 1 ∧
     (videoFrameDispatch trig now getDesc q clientId sessionId
        (Outcome.ok (some
          { landmarks := landmarks, confidence := mkRat 75 100,
            timestamp := ts, sessionId := origSession,
            recognizedGesture := some ("hello") }))
        (Outcome.ok voiceText)).emits.countP
          (emitIsTranslationResultOf OrigType.sign) = 1 ∧
     (videoFrameDispatch trig now getDesc q clientId sessionId
        (Outcome.ok (some
          { landmarks := landmarks, confidence := mkRat 75 100,
            timestamp := ts, sessionId := origSession,
            recognizedGesture := some ("hello") }))
        (Outcome.ok voiceText)).emits.countP emitIsAutoVoicePlayed = 1 ∧
     (videoFrameDispatch trig now getDesc q clientId sessionId
        (Outcome.ok (some
          { landmarks := landmarks, confidence := mkRat 75 100,
            timestamp := ts, sessionId := origSession,
            recognizedGesture := some ("hello") }))
        (Outcome.ok voiceText)).emits.length = 4) ∧
    ((videoFrameDispatch trig now getDesc q clientId sessionId
        (Outcome.ok (some
          { landmarks := landmarks, confidence := mkRat 5 10,
            timestamp := ts, sessionId := origSession,
            recognizedGesture := some ("hello") }))
        (Outcome.ok voiceText)).emits.countP emitIsSignDetected = 1 ∧
     (videoFrameDispatch trig now getDesc q clientId sessionId
        (Outcome.ok (some
          { landmarks := landmarks, confidence := mkRat 5 10,
            timestamp := ts, sessionId := origSession,
            recognizedGesture := some ("hello") }))
        (Outcome.ok voiceText)).emits.countP emitIsAvatarPoseUpdate = 1 ∧
     (videoFrameDispatch trig now getDesc q clientId sessionId
        (Outcome.ok (some
          { landmarks := landmarks, confidence := mkRat 5 10,
            timestamp := ts, sessionId := origSession,
            recognizedGesture := some ("hello") }))
        (Outcome.ok voiceText)).emits.countP emitIsTranslationResult = 0 ∧
     (videoFrameDispatch trig now getDesc q clientId sessionId
        (Outcome.ok (some
          { landmarks := landmarks, confidence := mkRat 5 10,
            timestamp := ts, sessionId := origSession,
            recognizedGesture := some ("hello") }))
        (Outcome.ok voiceText)).emits.countP emitIsAutoVoicePlayed = 0 ∧
     (videoFrameDispatch trig now getDesc q clientId sessionId
        (Outcome.ok (some
          { landmarks := landmarks, confidence := mkRat 5 10,
            timestamp := ts, sessionId := origSession,
            recognizedGesture := some ("hello") }))
        (Outcome.ok voiceText)).emits.length = 2) := by
  have h75 : decide ((mkRat 75 100) > mkRat 7 10) = true := by decide
  have h50 : decide ((mkRat 5 10) > mkRat 7 10) = false := by decide
  have hne : (("hello" : String) == "") = false := by decide
  have hnu : ((some ("hello") : Option String) == some ("unknown")) = false := by
    decide
  simp [videoFrameDispatch, processSignToVoiceAuto, truthyOpt, hfree, h75,
    h50, hne, hnu, List.countP_cons, List.countP_nil, emitIsSignDetected,
    emitIsAvatarPoseUpdate, emitIsTranslationResult,
    emitIsTranslationResultOf, emitIsAutoVoicePlayed]

/-- C2 witness: the counts at a fully concrete dispatch. -/
theorem videoFrame_hello_auto_chain_emit_counts_witness :
    (videoFrameDispatch trigZero 0 (fun _ => "desc") [] ("c1") ("sess")
      (Outcome.ok (some
        { landmarks := [], confidence := mkRat 75 100, timestamp := 0,
          sessionId := "orig", recognizedGesture := some ("hello") }))
      (Outcome.ok ("Hello there!"))).emits.countP
        (emitIsTranslationResultOf OrigType.sign) = 1 := by
  exact (videoFrame_hello_auto_chain_emit_counts trigZero 0 0
    (fun _ => "desc") [] ("c1") ("sess") ("orig") ("Hello there!") []
    (by decide)).1.2.2.1

/-! ## C8: `generateAvatarPose` never fails its caller -/

/-- `jsIdx` succeeds at an in-range index. -/
theorem jsIdx_isOk_of_lt {α : Type} (l : List α) (i : Nat)
    (h : i < l.length) : (jsIdx l i).isOk = true := by
  have hg : l[i]? = some (l.get ⟨i, h⟩) := List.getElem?_eq_getElem h
  simp [jsIdx, hg, Except.isOk, Except.toBool]

/-- Binding two succeeding `Except` computations succeeds. -/
theorem isOk_bind {α β : Type} (x : Except String α)
    (f : α → Except String β) (hx : x.isOk = true)
    (hf : ∀ a, (f a).isOk = true) : (x >>= f).isOk = true := by
  cases x with
  | ok a => simpa [except_bind_ok] using hf a
  | error e => simp [Except.isOk, Except.toBool] at hx

/-- `pure` succeeds. -/
theorem isOk_pure {α : Type} (a : α) :
    (pure a : Except String α).isOk = true := rfl

/-- `calculateFingerRotation` reads only in-range landmarks when base and
tip indices are within the array. -/
theorem calculateFingerRotationE_isOk (trig : TrigModel) (l : List Rat)
    (s e : Nat) (hs : s * 3 + 1 < l.length) (he : e * 3 + 1 < l.length) :
    (calculateFingerRotationE trig l s e).isOk = true := by
  unfold calculateFingerRotationE
  apply isOk_bind _ _ (jsIdx_isOk_of_lt _ _ (by omega)); intro _
  apply isOk_bind _ _ (jsIdx_isOk_of_lt _ _ hs); intro _
  apply isOk_bind _ _ (jsIdx_isOk_of_lt _ _ (by omega)); intro _
  apply isOk_bind _ _ (jsIdx_isOk_of_lt _ _ he); intro _
  exact isOk_pure _

/-- `generateGenericPoseFromLandmarks` never reads out of range: the
`< 63` guard covers every landmark index the body dereferences (the
largest unguarded index is 61). -/
theorem generateGenericPoseFromLandmarksE_isOk (trig : TrigModel)
    (now : Int) (landmarks : List (List Rat)) :
    (generateGenericPoseFromLandmarksE trig now landmarks).isOk = true := by
  unfold generateGenericPoseFromLandmarksE
  by_cases hg : (landmarks.length == 0 ||
      decide ((landmarks.headD []).length < 63)) = true
  · rw [if_pos hg]
    rfl
  · rw [if_neg hg]
    have hlen : 63 ≤ (landmarks.headD []).length := by
      rcases Nat.lt_or_ge ((landmarks.headD []).length) 63 with h | h
      · refine absurd ?_ hg
        simp only [Bool.or_eq_true, decide_eq_true_eq]
        exact Or.inr h
      · exact h
    dsimp only
    repeat
      first
      | exact isOk_pure _
      | (apply isOk_bind _ _ (jsIdx_isOk_of_lt _ _ (by omega)); intro _)
      | (apply isOk_bind _ _
          (calculateFingerRotationE_isOk trig _ _ _ (by omega) (by omega));
         intro _)

/-- The body of `generateAvatarPose` never fails on any input: every
branch either returns a computed pose, the middle animation pose (whose
index `len / 2` is in range because `len > 0` is checked), or falls back
to the generic/default pose. -/
theorem generateAvatarPoseE_isOk (trig : TrigModel) (now : Int)
    (signData : SignLanguageData) :
    (generateAvatarPoseE trig now signData).isOk = true := by
  unfold generateAvatarPoseE
  by_cases hb : (!(truthyOpt signData.recognizedGesture) ||
      signData.recognizedGesture == some ("unknown")) = true
  · rw [if_pos hb]
    exact generateGenericPoseFromLandmarksE_isOk trig now signData.landmarks
  · rw [if_neg hb]
    cases hA : gestureAnimationsGet now
        (signData.recognizedGesture.getD (String.mk [])) with
    | none =>
      simp only [hA]
      exact generateGenericPoseFromLandmarksE_isOk trig now signData.landmarks
    | some anims =>
      simp only [hA]
      by_cases hl : anims.length > 0
      · rw [if_pos hl]
        apply isOk_bind _ _
          (jsIdx_isOk_of_lt _ _ (Nat.div_lt_self hl (by omega)))
        intro _
        exact isOk_pure _
      · rw [if_neg hl]
        exact generateGenericPoseFromLandmarksE_isOk trig now signData.landmarks

/-- C8: `generateAvatarPose` never propagates an exception: on every
observation — unknown gesture, missing or too-short landmark data
included — the fallible body succeeds, and the public function returns
exactly its pose (with the `catch` clause additionally mapping any
internal failure to the default pose, a branch that is never reached). -/
theorem generateAvatarPose_never_propagates
    (trig : TrigModel) (now : Int) (signData : SignLanguageData) :
    generateAvatarPoseE trig now signData =
      Except.ok (generateAvatarPose trig now signData) := by
  have h := generateAvatarPoseE_isOk trig now signData
  cases hE : generateAvatarPoseE trig now signData with
  | ok p => simp [generateAvatarPose, hE]
  | error e =>
    rw [hE] at h
    simp [Except.isOk, Except.toBool] at h

end GestureVoice
